import Mathlib

/-!
Verification development for the django-shop repository.

The repository consists of MySQL provisioning SQL (stored procedures
`GetPopularProducts`, `GetSalesStats`, `UpdateProductRating`, trigger
`order_status_change_log`) and a jQuery client (`static/js/main.js`).
This file shallowly embeds those parts and proves or refutes the stated
properties about them.

Conventions of the embedding:
* SQL `DECIMAL` values are modelled as `Rat`; `ROUND(x, 2)` and storage
  into a `DECIMAL(.,2)` column round half away from zero, which for the
  non-negative values arising here is `round2` below.
* MySQL name resolution inside stored routines gives routine parameters
  and declared variables precedence over table columns of the same name
  (MySQL Reference Manual, "Local Variable Scope and Resolution").  The
  embedding of `UpdateProductRating` therefore reads
  `WHERE product_id = product_id` as comparing the parameter with itself.
* Timestamps are day numbers (`Int`); `NOW()` is the field `now` of the
  database state, and `DATE_SUB(NOW(), INTERVAL d DAY)` is `now - d`.
-/

/-- Rounding to 2 decimal places, half away from zero on the non-negative
values used here: `ROUND(x, 2)` of MySQL, and the rounding performed when a
value is stored into a `DECIMAL(3,2)` variable or column. -/
def round2 (q : Rat) : Rat := (⌊q * 100 + 1 / 2⌋ : Rat) / 100

/-- Row of `catalog_review` (columns used by the procedures). -/
structure Review where
  id : Int
  product_id : Int
  rating : Int
  is_approved : Bool
deriving DecidableEq

/-- Row of `catalog_product` (columns used by the procedures). -/
structure Product where
  id : Int
  name : String
  slug : String
  price : Rat
  old_price : Option Rat
  rating : Rat
  reviews_count : Int
  category_id : Int
  brand_id : Int
  is_active : Bool
deriving DecidableEq

/-- State read and written by `UpdateProductRating`. -/
structure CatalogDB where
  products : List Product
  reviews : List Review
deriving DecidableEq

/-- The review rows matched by
`FROM catalog_review WHERE product_id = product_id AND is_approved = 1`
inside `UpdateProductRating`.  Both occurrences of `product_id` resolve to
the routine parameter `pid` (parameters shadow columns in MySQL routines),
so the product filter degenerates to the tautology `pid == pid` and the rows
are the approved reviews of every product. -/
def ratingRows (pid : Int) (reviews : List Review) : List Review :=
  reviews.filter (fun r => pid == pid && r.is_approved)

/-- `SELECT AVG(rating) ...` over the matched rows: `none` models SQL `NULL`
on an empty set, otherwise the exact rational mean. -/
def avgMatched (pid : Int) (reviews : List Review) : Option Rat :=
  let rows := ratingRows pid reviews
  if rows.length = 0 then none
  else some (((rows.map (fun r => (r.rating : Rat))).sum) / (rows.length : Rat))

/-- The local variable `avg_rating DECIMAL(3,2)` after
`SELECT AVG(rating) INTO avg_rating ...; IF avg_rating IS NULL THEN SET
avg_rating = 0.00; END IF;` — the `DECIMAL(3,2)` assignment rounds the mean
to 2 places. -/
def avg_rating_var (pid : Int) (reviews : List Review) : Rat :=
  match avgMatched pid reviews with
  | none => 0
  | some a => round2 a

/-- The `reviews_count` subquery of the `UPDATE`:
`SELECT COUNT(*) FROM catalog_review WHERE product_id = product_id AND
is_approved = 1` — the same degenerate filter as `ratingRows`. -/
def newCount (pid : Int) (reviews : List Review) : Int :=
  (ratingRows pid reviews).length

/-- Effect of the `UPDATE catalog_product SET rating = ROUND(avg_rating, 2),
reviews_count = (...) WHERE id = product_id` on one product row (`id` is a
column, `product_id` the parameter, so only the row with `id = pid` is
written). -/
def applyRating (pid : Int) (v : Rat) (c : Int) (p : Product) : Product :=
  if p.id = pid then { p with rating := v, reviews_count := c } else p

/-- Stored procedure `UpdateProductRating(IN product_id INT)`. -/
def UpdateProductRating (pid : Int) (db : CatalogDB) : CatalogDB :=
  { db with
    products :=
      db.products.map
        (applyRating pid (round2 (avg_rating_var pid db.reviews))
          (newCount pid db.reviews)) }

/-- Two products; product 1 has one approved review rated 5, product 2 one
approved review rated 3. -/
def exRatingDB1 : CatalogDB :=
  { products :=
      [{ id := 1, name := "A", slug := "a", price := 100, old_price := none,
         rating := 0, reviews_count := 0, category_id := 1, brand_id := 1,
         is_active := true },
       { id := 2, name := "B", slug := "b", price := 200, old_price := none,
         rating := 0, reviews_count := 0, category_id := 1, brand_id := 1,
         is_active := true }],
    reviews :=
      [{ id := 1, product_id := 1, rating := 5, is_approved := true },
       { id := 2, product_id := 2, rating := 3, is_approved := true }] }

/-- Two products; product 1 has no reviews at all, product 2 has one
approved review rated 4. -/
def exRatingDB2 : CatalogDB :=
  { products :=
      [{ id := 1, name := "A", slug := "a", price := 100, old_price := none,
         rating := 0, reviews_count := 0, category_id := 1, brand_id := 1,
         is_active := true },
       { id := 2, name := "B", slug := "b", price := 200, old_price := none,
         rating := 0, reviews_count := 0, category_id := 1, brand_id := 1,
         is_active := true }],
    reviews :=
      [{ id := 1, product_id := 2, rating := 4, is_approved := true }] }

/-- C1: `UpdateProductRating` does NOT restrict the aggregation to the given
product.  With approved reviews rated 5 (product 1) and 3 (product 2),
calling the procedure for product 1 writes rating 4.00 and reviews_count 2 —
the average and count over ALL approved reviews — although product 1's own
approved ratings are exactly [5]. -/
theorem updateProductRating_at_cross_product_input :
    (UpdateProductRating 1 exRatingDB1).products.map
        (fun p => (p.id, p.rating, p.reviews_count))
      = [(1, 4, 2), (2, 0, 0)]
    ∧ (exRatingDB1.reviews.filter
        (fun r => r.product_id == 1 && r.is_approved)).map Review.rating
      = [5] := by
  refine ⟨?_, by decide⟩
  simp only [UpdateProductRating, exRatingDB1, applyRating, avg_rating_var,
    avgMatched, ratingRows, newCount]
  norm_num [round2, applyRating]

/-- C2: with no approved reviews for product 1 but one approved review
rated 4 for product 2, calling `UpdateProductRating(1)` writes rating 4.00
and reviews_count 1 to product 1 instead of 0.00 and 0. -/
theorem updateProductRating_at_no_own_reviews_input :
    (UpdateProductRating 1 exRatingDB2).products.map
        (fun p => (p.id, p.rating, p.reviews_count))
      = [(1, 4, 1), (2, 0, 0)]
    ∧ exRatingDB2.reviews.filter
        (fun r => r.product_id == 1 && r.is_approved) = [] := by
  refine ⟨?_, by decide⟩
  simp only [UpdateProductRating, exRatingDB2, applyRating, avg_rating_var,
    avgMatched, ratingRows, newCount]
  norm_num [round2, applyRating]

/-- C4: the rating recompute is idempotent — running `UpdateProductRating`
twice on an unchanged review set leaves the products exactly as one run
does. -/
theorem updateProductRating_idempotent (pid : Int) (db : CatalogDB) :
    UpdateProductRating pid (UpdateProductRating pid db)
      = UpdateProductRating pid db := by
  simp only [UpdateProductRating, List.map_map]
  congr 1
  refine List.map_congr_left fun p _ => ?_
  simp only [Function.comp_apply, applyRating]
  by_cases hp : p.id = pid
  · simp [hp]
  · simp [hp]

/-- Row of `catalog_category` (columns used by the procedures). -/
structure Category where
  id : Int
  name : String
deriving DecidableEq

/-- Row of `catalog_brand` (columns used by the procedures). -/
structure Brand where
  id : Int
  name : String
deriving DecidableEq

/-- Row of `orders_order` (columns used by the procedures and trigger).
`created_at` is a day number. -/
structure OrderRow where
  id : Int
  user_id : Int
  status : String
  created_at : Int
deriving DecidableEq

/-- Row of `orders_orderitem` (columns used by the procedures). -/
structure OrderItem where
  id : Int
  order_id : Int
  product_id : Int
  quantity : Int
  price : Rat
deriving DecidableEq

/-- State read by `GetPopularProducts`; `now` is the current day, i.e.
`NOW()`. -/
structure ShopDB where
  products : List Product
  categories : List Category
  brands : List Brand
  orders : List OrderRow
  order_items : List OrderItem
  now : Int
deriving DecidableEq

/-- Result row of `GetPopularProducts`.  `total_sold` is `Option Int`
because `SUM` over an empty group is SQL `NULL`. -/
structure PopularRow where
  id : Int
  name : String
  slug : String
  price : Rat
  old_price : Option Rat
  rating : Rat
  reviews_count : Int
  category_name : String
  brand_name : String
  orders_count : Int
  total_sold : Option Int
deriving DecidableEq

/-- The order matched for one order-item row by
`LEFT JOIN orders_order o ON oi.order_id = o.id AND
o.created_at >= DATE_SUB(NOW(), INTERVAL days_back DAY)`:
`none` when the order is missing or outside the window (the row itself is
kept by the LEFT JOIN either way).  `o.id` is the primary key, so `find?`
models the at-most-one matching row. -/
def recentOrderFor (db : ShopDB) (days_back : Int) (oi : OrderItem) :
    Option OrderRow :=
  db.orders.find?
    (fun o => oi.order_id == o.id && decide (db.now - days_back ≤ o.created_at))

/-- The group of joined rows for one active product and its aggregates:
`COUNT(oi.id)` counts the order-item rows and `SUM(oi.quantity)` sums their
quantities.  Both read only the order-item side of the join, so an order
item whose order fell outside the `days_back` window (its `recentOrderFor`
component is `none`) still contributes. -/
def popularRowFor (db : ShopDB) (days_back : Int) (p : Product)
    (c : Category) (b : Brand) : PopularRow :=
  let ois := db.order_items.filter (fun oi => oi.product_id == p.id)
  let joined := ois.map (fun oi => (oi, recentOrderFor db days_back oi))
  { id := p.id, name := p.name, slug := p.slug, price := p.price,
    old_price := p.old_price, rating := p.rating,
    reviews_count := p.reviews_count,
    category_name := c.name, brand_name := b.name,
    orders_count := joined.length,
    total_sold :=
      if joined.isEmpty then none
      else some ((joined.map (fun x => x.1.quantity)).sum) }

/-- `ORDER BY total_sold DESC` comparison: `r` may precede `s` when its
`total_sold` is not smaller; `NULL` sorts last under `DESC` in MySQL. -/
def tsDescLe (r s : PopularRow) : Bool :=
  match r.total_sold, s.total_sold with
  | some a, some b => b ≤ a
  | some _, none => true
  | none, none => true
  | none, some _ => false

/-- Insertion step of the `ORDER BY` sort. -/
def orderByInsert (le : PopularRow → PopularRow → Bool) (a : PopularRow) :
    List PopularRow → List PopularRow
  | [] => [a]
  | b :: t => if le a b then a :: b :: t else b :: orderByInsert le a t

/-- Insertion sort implementing `ORDER BY` (SQL fixes no tie order, so any
sort consistent with the comparison is a faithful model). -/
def orderBySort (le : PopularRow → PopularRow → Bool) :
    List PopularRow → List PopularRow
  | [] => []
  | a :: t => orderByInsert le a (orderBySort le t)

/-- Stored procedure `GetPopularProducts(IN days_back INT, IN limit_count
INT)`: inner joins to category and brand (primary-key lookups), the two
left joins folded into `popularRowFor`, `WHERE p.is_active = 1`,
`GROUP BY p.id`, `ORDER BY total_sold DESC`, `LIMIT limit_count`. -/
def GetPopularProducts (db : ShopDB) (days_back limit_count : Int) :
    List PopularRow :=
  let rows := db.products.filterMap (fun p =>
    if p.is_active then
      match db.categories.find? (fun c => p.category_id == c.id),
            db.brands.find? (fun b => p.brand_id == b.id) with
      | some c, some b => some (popularRowFor db days_back p c b)
      | _, _ => none
    else none)
  (orderBySort tsDescLe rows).take limit_count.toNat

/-- One active product whose single order item (quantity 5) belongs to an
order created at day 0; the current day is 100, so the order is far outside
a 30-day window. -/
def exPopularDB : ShopDB :=
  { products :=
      [{ id := 1, name := "Phone", slug := "phone", price := 100,
         old_price := none, rating := 0, reviews_count := 0,
         category_id := 1, brand_id := 1, is_active := true }],
    categories := [{ id := 1, name := "Phones" }],
    brands := [{ id := 1, name := "Acme" }],
    orders := [{ id := 10, user_id := 1, status := "completed",
                 created_at := 0 }],
    order_items := [{ id := 5, order_id := 10, product_id := 1,
                      quantity := 5, price := 100 }],
    now := 100 }

/-- C7: `GetPopularProducts(30, 10)` reports `total_sold = 5` for a product
whose only order item belongs to an order created 100 days ago — outside
the 30-day window, as the second conjunct shows — because the date
condition sits in the LEFT JOIN ON clause and `SUM(oi.quantity)` reads only
the order-item side of the join. -/
theorem getPopularProducts_counts_stale_orders :
    (GetPopularProducts exPopularDB 30 10).map
        (fun r => (r.id, r.total_sold, r.orders_count))
      = [(1, some 5, 1)]
    ∧ recentOrderFor exPopularDB 30
        { id := 5, order_id := 10, product_id := 1, quantity := 5,
          price := 100 } = none := by
  constructor
  · rfl
  · rfl

/-- Row of `orders_orderlog` as inserted by the trigger. -/
structure OrderLogRow where
  order_id : Int
  old_status : String
  new_status : String
  changed_by : Int
  changed_at : Int
deriving DecidableEq

/-- Trigger `order_status_change_log AFTER UPDATE ON orders_order`: given
the OLD and NEW row images, the current time `now`, and the current
`orders_orderlog` table, it appends one log row exactly when
`OLD.status != NEW.status`. -/
def order_status_change_log (old new : OrderRow) (now : Int)
    (log : List OrderLogRow) : List OrderLogRow :=
  if old.status ≠ new.status then
    log ++ [{ order_id := new.id, old_status := old.status,
              new_status := new.status, changed_by := new.user_id,
              changed_at := now }]
  else log

/-- C10: after an UPDATE of an `orders_order` row, the trigger inserts a
log row carrying the order id, old status, new status, user and timestamp
if and only if the status changed, and an update that leaves the status
unchanged leaves the log table untouched. -/
theorem order_status_change_log_iff (old new : OrderRow) (now : Int)
    (log : List OrderLogRow) :
    (order_status_change_log old new now log
        = log ++ [{ order_id := new.id, old_status := old.status,
                    new_status := new.status, changed_by := new.user_id,
                    changed_at := now }]
      ↔ old.status ≠ new.status)
    ∧ (old.status = new.status →
        order_status_change_log old new now log = log) := by
  constructor
  · constructor
    · intro h hs
      rw [order_status_change_log, if_neg (by simpa using hs)] at h
      exact absurd (congrArg List.length h) (by simp)
    · intro hs
      rw [order_status_change_log, if_pos hs]
  · intro hs
    rw [order_status_change_log, if_neg (by simpa using hs)]

/-- Witness for `order_status_change_log_iff`: a status change from "new"
to "paid" appends exactly the expected log row, and an update keeping
status "new" appends nothing. -/
theorem order_status_change_log_iff_witness :
    order_status_change_log
        { id := 3, user_id := 9, status := "new", created_at := 1 }
        { id := 3, user_id := 9, status := "paid", created_at := 1 } 7 []
      = [{ order_id := 3, old_status := "new", new_status := "paid",
           changed_by := 9, changed_at := 7 }]
    ∧ order_status_change_log
        { id := 3, user_id := 9, status := "new", created_at := 1 }
        { id := 3, user_id := 9, status := "new", created_at := 2 } 7 []
      = [] := by
  constructor
  · exact (order_status_change_log_iff
      { id := 3, user_id := 9, status := "new", created_at := 1 }
      { id := 3, user_id := 9, status := "paid", created_at := 1 } 7 []).1.2
      (by decide)
  · exact (order_status_change_log_iff
      { id := 3, user_id := 9, status := "new", created_at := 1 }
      { id := 3, user_id := 9, status := "new", created_at := 2 } 7 []).2
      (by decide)

/-- A JavaScript numeric value as produced by `parseInt`: either an integer
or `NaN`. -/
inductive JsNum where
  | nan : JsNum
  | int (n : Int) : JsNum
deriving DecidableEq

/-- JavaScript `x < b` for `x : JsNum`: false when `x` is `NaN`. -/
def jsLt (a : JsNum) (b : Int) : Bool :=
  match a with
  | .nan => false
  | .int n => n < b

/-- JavaScript `parseInt(...) || 1`: the falsy values `NaN` and `0` become
`1`. -/
def jsOr1 (v : JsNum) : Int :=
  match v with
  | .nan => 1
  | .int n => if n = 0 then 1 else n

/-- A value sent in an AJAX `data` object: a string, an integer, or `NaN`. -/
inductive FieldVal where
  | s (v : String) : FieldVal
  | i (v : Int) : FieldVal
  | nan : FieldVal
deriving DecidableEq

/-- Embedding of a `JsNum` as a data value. -/
def jsVal (v : JsNum) : FieldVal :=
  match v with
  | .nan => .nan
  | .int n => .i n

/-- HTTP method of an AJAX request. -/
inductive HttpMethod where
  | GET : HttpMethod
  | POST : HttpMethod
deriving DecidableEq

/-- One `$.ajax` request as issued by `main.js`: url, method and the
`data` object (field name, value). -/
structure Request where
  url : String
  method : HttpMethod
  data : List (String × FieldVal)
deriving DecidableEq

/-- Page-level constants of `main.js`: `CSRF_TOKEN` is read from the
server-rendered `meta[name="csrf-token"]` tag. -/
structure ClientEnv where
  csrfToken : String
deriving DecidableEq

/-- `ADD_TO_CART_URL` (an unrendered server-side template placeholder in
the static file; the embedding only needs the five URLs to be the distinct
strings they are). -/
def ADD_TO_CART_URL : String := "\x7b% url \"cart:add_to_cart\" %\x7d"

/-- `UPDATE_CART_URL`. -/
def UPDATE_CART_URL : String := "\x7b% url \"cart:update_item_quantity\" %\x7d"

/-- `REMOVE_FROM_CART_URL`. -/
def REMOVE_FROM_CART_URL : String := "\x7b% url \"cart:remove_item\" %\x7d"

/-- `WISHLIST_URL`. -/
def WISHLIST_URL : String := "\x7b% url \"accounts:add_to_wishlist\" %\x7d"

/-- `COMPARE_URL`. -/
def COMPARE_URL : String := "\x7b% url \"accounts:add_to_compare\" %\x7d"

/-- The POST issued by `handleAddToCart`: data
`{product_id, quantity, csrfmiddlewaretoken}`. -/
def addToCartRequest (env : ClientEnv) (productId : Int) (quantity : Int) :
    Request :=
  { url := ADD_TO_CART_URL, method := .POST,
    data := [("product_id", .i productId), ("quantity", .i quantity),
             ("csrfmiddlewaretoken", .s env.csrfToken)] }

/-- The POST issued by `updateCartItemQuantity(itemId, quantity)`: data
`{item_id, quantity, csrfmiddlewaretoken}`. -/
def updateCartItemQuantity (env : ClientEnv) (itemId : Int) (q : JsNum) :
    Request :=
  { url := UPDATE_CART_URL, method := .POST,
    data := [("item_id", .i itemId), ("quantity", jsVal q),
             ("csrfmiddlewaretoken", .s env.csrfToken)] }

/-- The POST issued by `removeFromCart(itemId)` once the user confirms the
dialog: data `{item_id, csrfmiddlewaretoken}`. -/
def removeFromCartRequest (env : ClientEnv) (itemId : Int) : Request :=
  { url := REMOVE_FROM_CART_URL, method := .POST,
    data := [("item_id", .i itemId),
             ("csrfmiddlewaretoken", .s env.csrfToken)] }

/-- `removeFromCart` guards its POST behind `confirm(...)`. -/
def removeFromCart (env : ClientEnv) (itemId : Int) (confirmed : Bool) :
    Option Request :=
  if confirmed then some (removeFromCartRequest env itemId) else none

/-- The POST issued by `handleAddToWishlist`: data
`{product_id, csrfmiddlewaretoken}`. -/
def wishlistRequest (env : ClientEnv) (productId : Int) : Request :=
  { url := WISHLIST_URL, method := .POST,
    data := [("product_id", .i productId),
             ("csrfmiddlewaretoken", .s env.csrfToken)] }

/-- The POST issued by `handleAddToCompare`: data
`{product_id, csrfmiddlewaretoken}`. -/
def compareRequest (env : ClientEnv) (productId : Int) : Request :=
  { url := COMPARE_URL, method := .POST,
    data := [("product_id", .i productId),
             ("csrfmiddlewaretoken", .s env.csrfToken)] }

/-- C5: each of the five mutating client actions — add to cart, update
quantity, remove item (once confirmed), wishlist toggle, compare toggle —
is a POST whose data carries `csrfmiddlewaretoken` set to the token read
from the page's csrf-token meta tag. -/
theorem mutating_requests_carry_csrf_token (env : ClientEnv)
    (productId itemId quantity : Int) (q : JsNum) :
    ((addToCartRequest env productId quantity).method = .POST
      ∧ ("csrfmiddlewaretoken", FieldVal.s env.csrfToken)
          ∈ (addToCartRequest env productId quantity).data)
    ∧ ((updateCartItemQuantity env itemId q).method = .POST
      ∧ ("csrfmiddlewaretoken", FieldVal.s env.csrfToken)
          ∈ (updateCartItemQuantity env itemId q).data)
    ∧ (removeFromCart env itemId true = some (removeFromCartRequest env itemId)
      ∧ (removeFromCartRequest env itemId).method = .POST
      ∧ ("csrfmiddlewaretoken", FieldVal.s env.csrfToken)
          ∈ (removeFromCartRequest env itemId).data)
    ∧ ((wishlistRequest env productId).method = .POST
      ∧ ("csrfmiddlewaretoken", FieldVal.s env.csrfToken)
          ∈ (wishlistRequest env productId).data)
    ∧ ((compareRequest env productId).method = .POST
      ∧ ("csrfmiddlewaretoken", FieldVal.s env.csrfToken)
          ∈ (compareRequest env productId).data) := by
  refine ⟨⟨rfl, ?_⟩, ⟨rfl, ?_⟩, ⟨rfl, rfl, ?_⟩, ⟨rfl, ?_⟩, ⟨rfl, ?_⟩⟩ <;>
    simp [addToCartRequest, updateCartItemQuantity, removeFromCartRequest,
      wishlistRequest, compareRequest]

/-- The cart mutation a quantity handler decides to perform: either the
`removeFromCart` flow or the `updateCartItemQuantity` flow. -/
inductive CartAction where
  | removeItem (itemId : Int) : CartAction
  | updateItem (itemId : Int) (quantity : JsNum) : CartAction
deriving DecidableEq

/-- `newQuantity` as computed by `handleQuantityChange`:
`currentQuantity = parseInt(button.data(...)) || 1` then `+1` for the
increase button, `-1` otherwise. -/
def newQuantityAfterClick (isIncrease : Bool) (currentQtyAttr : JsNum) :
    Int :=
  let currentQuantity := jsOr1 currentQtyAttr
  if isIncrease then currentQuantity + 1 else currentQuantity - 1

/-- `handleQuantityChange`: `if (newQuantity < 1) removeFromCart(itemId)
else updateCartItemQuantity(itemId, newQuantity)`. -/
def handleQuantityChange (itemId : Int) (isIncrease : Bool)
    (currentQtyAttr : JsNum) : CartAction :=
  let newQuantity := newQuantityAfterClick isIncrease currentQtyAttr
  if newQuantity < 1 then .removeItem itemId
  else .updateItem itemId (.int newQuantity)

/-- `handleQuantityInputChange`: `newQuantity = parseInt(input.val())`,
then the same branch; the `NaN < 1` comparison is false in JavaScript, so a
non-numeric input falls through to the update flow. -/
def handleQuantityInputChange (itemId : Int) (newQuantity : JsNum) :
    CartAction :=
  if jsLt newQuantity 1 then .removeItem itemId
  else .updateItem itemId newQuantity

/-- C3: both quantity handlers route a new quantity strictly below 1 to the
remove-item flow and a new quantity of at least 1 to the update-quantity
flow carrying that quantity. -/
theorem quantity_change_below_one_removes (itemId : Int) (isIncrease : Bool)
    (currentQtyAttr : JsNum) (n : Int) :
    (newQuantityAfterClick isIncrease currentQtyAttr < 1 →
      handleQuantityChange itemId isIncrease currentQtyAttr
        = .removeItem itemId)
    ∧ (1 ≤ newQuantityAfterClick isIncrease currentQtyAttr →
      handleQuantityChange itemId isIncrease currentQtyAttr
        = .updateItem itemId
            (.int (newQuantityAfterClick isIncrease currentQtyAttr)))
    ∧ (n < 1 → handleQuantityInputChange itemId (.int n)
        = .removeItem itemId)
    ∧ (1 ≤ n → handleQuantityInputChange itemId (.int n)
        = .updateItem itemId (.int n)) := by
  refine ⟨fun h => ?_, fun h => ?_, fun h => ?_, fun h => ?_⟩
  · rw [handleQuantityChange, if_pos h]
  · rw [handleQuantityChange, if_neg (by omega)]
  · rw [handleQuantityInputChange, if_pos (by simpa [jsLt] using h)]
  · rw [handleQuantityInputChange, if_neg (by simp [jsLt]; omega)]

/-- Witness for `quantity_change_below_one_removes`: decrementing from
quantity 1 removes the line, and typing 2 updates it to 2. -/
theorem quantity_change_below_one_removes_witness :
    handleQuantityChange 7 false (.int 1) = .removeItem 7
    ∧ handleQuantityInputChange 7 (.int 2) = .updateItem 7 (.int 2) := by
  exact ⟨(quantity_change_below_one_removes 7 false (.int 1) 2).1 (by decide),
    (quantity_change_below_one_removes 7 false (.int 1) 2).2.2.2 (by decide)⟩

/-- jQuery `addClass`: appends the class when absent. -/
def addClass (c : String) (cs : List String) : List String :=
  if c ∈ cs then cs else cs ++ [c]

/-- jQuery `removeClass`: removes every occurrence of the class. -/
def removeClass (c : String) (cs : List String) : List String :=
  cs.filter (fun x => x ≠ c)

/-- Adding a class that was absent and then removing it restores the class
list. -/
theorem removeClass_addClass_of_not_mem (c : String) (cs : List String)
    (h : c ∉ cs) : removeClass c (addClass c cs) = cs := by
  rw [addClass, if_neg h, removeClass, List.filter_append]
  have h1 : cs.filter (fun x => x ≠ c) = cs :=
    List.filter_eq_self.mpr fun a ha => decide_eq_true fun e => h (e ▸ ha)
  have h2 : List.filter (fun x => decide (x ≠ c)) [c] = [] := by simp
  rw [h1, h2, List.append_nil]

/-- The observable state of the add-to-cart button: the `disabled` prop,
its CSS class list, and its inner HTML. -/
structure ButtonState where
  disabled : Bool
  classes : List String
  html : String
deriving DecidableEq

/-- The markup `showSpinner` writes into the button. -/
def spinnerHtml : String := "<div class=\"spinner\"></div>"

/-- The markup the success branch writes into the button. -/
def addedHtml : String := "<i class=\"fas fa-check\"></i> Added"

/-- How one `handleAddToCart` request ends: a server response with its
`response.success` flag, or a transport error. -/
inductive AddToCartOutcome where
  | httpSuccess (success : Bool) : AddToCartOutcome
  | transportError : AddToCartOutcome
deriving DecidableEq

/-- The button during the in-flight request:
`button.prop("disabled", true).addClass("loading"); showSpinner(button)`. -/
def addToCartInFlight (b : ButtonState) : ButtonState :=
  { disabled := true, classes := addClass "loading" b.classes,
    html := spinnerHtml }

/-- The button once the `handleAddToCart` request finished.
`originalText` is captured before the request.  On `response.success` the
code swaps btn-primary for btn-success, shows a check mark, and swaps back
2 s later (the value here is the post-timeout state; note it never
re-enables the button).  On a non-success response or a transport error it
removes `loading`, re-enables the button and restores `originalText`. -/
def addToCartButtonAfter (b : ButtonState) (o : AddToCartOutcome) :
    ButtonState :=
  let originalText := b.html
  let b1 := addToCartInFlight b
  match o with
  | .httpSuccess true =>
    let b2 := { b1 with
      classes := addClass "btn-success" (removeClass "btn-primary" b1.classes),
      html := addedHtml }
    { b2 with
      classes := addClass "btn-primary" (removeClass "btn-success" b2.classes),
      html := originalText }
  | .httpSuccess false =>
    { b1 with
        classes := removeClass "loading" b1.classes,
        disabled := false,
        html := originalText }
  | .transportError =>
    { b1 with
        classes := removeClass "loading" b1.classes,
        disabled := false,
        html := originalText }

/-- C6: a failed add-to-cart request (non-success response or transport
error) leaves the triggering button exactly in its pre-request state —
enabled, without the loading marker, with its original label — and the
button is disabled while the request is in flight. -/
theorem add_to_cart_failure_restores_button (b : ButtonState)
    (o : AddToCartOutcome) (hd : b.disabled = false)
    (hl : "loading" ∉ b.classes) (ho : o ≠ .httpSuccess true) :
    addToCartButtonAfter b o = b
    ∧ (addToCartInFlight b).disabled = true := by
  refine ⟨?_, rfl⟩
  have hres := removeClass_addClass_of_not_mem "loading" b.classes hl
  obtain ⟨bd, bc, bh⟩ := b
  simp only at hd hres
  subst hd
  cases o with
  | httpSuccess s =>
    cases s with
    | true => exact absurd rfl ho
    | false => simp [addToCartButtonAfter, addToCartInFlight, hres]
  | transportError => simp [addToCartButtonAfter, addToCartInFlight, hres]

/-- Witness for `add_to_cart_failure_restores_button`: a transport error on
a plain enabled button restores it, and the in-flight state is disabled. -/
theorem add_to_cart_failure_restores_button_witness :
    addToCartButtonAfter { disabled := false, classes := [], html := "Buy" }
        .transportError
      = { disabled := false, classes := [], html := "Buy" }
    ∧ (addToCartInFlight
        { disabled := false, classes := [], html := "Buy" }).disabled
      = true :=
  add_to_cart_failure_restores_button
    { disabled := false, classes := [], html := "Buy" } .transportError rfl
    (by decide) (by decide)

/-- The suggestions endpoint queried by `handleSearchInput`. -/
def SUGGESTIONS_URL : String := "/catalog/search/suggestions/"

/-- What one run of `handleSearchInput` does to the page: whether it hides
the `.search-suggestions` container, and which requests it issues. -/
structure SearchEffect where
  hideSuggestions : Bool
  requests : List Request
deriving DecidableEq

/-- `handleSearchInput`: `if (query.length < 2) hide-and-return; else` one
GET to the suggestions endpoint with `data: \x7b q: query \x7d`. -/
def handleSearchInput (query : String) : SearchEffect :=
  if query.length < 2 then { hideSuggestions := true, requests := [] }
  else { hideSuggestions := false,
         requests := [{ url := SUGGESTIONS_URL, method := .GET,
                        data := [("q", .s query)] }] }

/-- C9: a query shorter than 2 characters hides the suggestion container
and issues no request; a query of length at least 2 issues exactly one GET
to the suggestions endpoint carrying the query as `q`. -/
theorem search_input_threshold (query : String) :
    (query.length < 2 →
      (handleSearchInput query).hideSuggestions = true
      ∧ (handleSearchInput query).requests = [])
    ∧ (2 ≤ query.length →
      (handleSearchInput query).requests
        = [{ url := SUGGESTIONS_URL, method := .GET,
             data := [("q", .s query)] }]) := by
  constructor
  · intro h
    rw [handleSearchInput, if_pos h]
    exact ⟨rfl, rfl⟩
  · intro h
    rw [handleSearchInput, if_neg (by omega)]

/-- Witness for `search_input_threshold`: "a" hides and stays silent, "ab"
issues the one suggestion request. -/
theorem search_input_threshold_witness :
    ((handleSearchInput "a").hideSuggestions = true
      ∧ (handleSearchInput "a").requests = [])
    ∧ (handleSearchInput "ab").requests
        = [{ url := SUGGESTIONS_URL, method := .GET,
             data := [("q", .s "ab")] }] :=
  ⟨(search_input_threshold "a").1 (by decide),
   (search_input_threshold "ab").2 (by decide)⟩

/-- Modelled from the spec: a Cart Store entry keyed by (ownerKey,
productId) with its quantity — the store itself (server-side cart code) is
not under src/, only its client callers are (spec sections 3 and 4.1). -/
structure StoreEntry where
  ownerKey : String
  productId : Int
  quantity : Int
deriving DecidableEq

/-- Modelled from the spec: `updateQuantity` as one atomic per-entry
mutation — it writes the given quantity to the entry with the given key in
a single step (spec section 5: per-(ownerKey, productId) mutation
atomicity). -/
def storeUpdateQuantity (store : List StoreEntry) (owner : String)
    (pid : Int) (q : Int) : List StoreEntry :=
  store.map (fun e =>
    if e.ownerKey == owner && e.productId == pid then { e with quantity := q }
    else e)

/-- The stored quantity of the entry with the given key, `none` when
absent. -/
def storeQuantity (store : List StoreEntry) (owner : String) (pid : Int) :
    Option Int :=
  (store.find? (fun e => e.ownerKey == owner && e.productId == pid)).map
    (fun e => e.quantity)

/-- Modelled from the spec: two concurrent `updateQuantity` calls must
serialize (spec section 5), so their concurrent execution is one of the two
sequential orders, chosen by the schedule `q1First`. -/
def concurrentTwoUpdates (store : List StoreEntry) (owner : String)
    (pid : Int) (q1 q2 : Int) (q1First : Bool) : List StoreEntry :=
  if q1First then
    storeUpdateQuantity (storeUpdateQuantity store owner pid q1) owner pid q2
  else
    storeUpdateQuantity (storeUpdateQuantity store owner pid q2) owner pid q1

/-- After an atomic `updateQuantity`, the stored quantity of the written
key is the written value whenever the entry exists. -/
theorem storeQuantity_update (store : List StoreEntry) (owner : String)
    (pid : Int) (q : Int) :
    storeQuantity (storeUpdateQuantity store owner pid q) owner pid
      = (storeQuantity store owner pid).map (fun _ => q) := by
  induction store with
  | nil => rfl
  | cons e t ih =>
    by_cases h : (e.ownerKey == owner && e.productId == pid) = true
    · simp only [storeUpdateQuantity, List.map_cons, if_pos h, storeQuantity,
        List.find?_cons]
      rw [h]
      rfl
    · have hb : (e.ownerKey == owner && e.productId == pid) = false := by
        simpa using h
      simp only [storeUpdateQuantity, List.map_cons, if_neg h, storeQuantity,
        List.find?_cons]
      rw [hb]
      exact ih

/-- C8: two concurrent `updateQuantity` calls writing 5 and 3 to the same
existing entry leave its stored quantity at exactly one of the two written
values, under every serialization order. -/
theorem concurrent_update_quantity_serializes (store : List StoreEntry)
    (owner : String) (pid : Int) (q1First : Bool)
    (h : storeQuantity store owner pid ≠ none) :
    storeQuantity (concurrentTwoUpdates store owner pid 5 3 q1First) owner
        pid = some 5
    ∨ storeQuantity (concurrentTwoUpdates store owner pid 5 3 q1First) owner
        pid = some 3 := by
  obtain ⟨v, hv⟩ := Option.ne_none_iff_exists'.mp h
  cases q1First
  · left
    simp [concurrentTwoUpdates, storeQuantity_update, hv]
  · right
    simp [concurrentTwoUpdates, storeQuantity_update, hv]

/-- Witness for `concurrent_update_quantity_serializes`: a one-entry store,
with the update writing 5 serialized first. -/
theorem concurrent_update_quantity_serializes_witness :
    storeQuantity (concurrentTwoUpdates
        [{ ownerKey := "s", productId := 42, quantity := 2 }] "s" 42 5 3
        true) "s" 42 = some 5
    ∨ storeQuantity (concurrentTwoUpdates
        [{ ownerKey := "s", productId := 42, quantity := 2 }] "s" 42 5 3
        true) "s" 42 = some 3 :=
  concurrent_update_quantity_serializes
    [{ ownerKey := "s", productId := 42, quantity := 2 }] "s" 42 true
    (by decide)
